import Mathlib

/-!
Verification of the cuGraph gdf_* C API layer (src/cpp/src/cugraph.cu and the
older copy in the unnamed sources) against its natural-language specification.

The gdf entry points are embedded shallowly: gdf columns become lists of
integers tagged with a dtype, device pointers become the lists they point to,
and each fallible entry point returns its gdf_error outcome together with the
state it produced.  Inner CUDA kernels that are not part of the provided
sources (renumber.cuh, COOtoCSR.cuh, bfs.cuh, pagerank.cuh) are modelled from
the specification, as flagged in their doc comments.
-/

/-- The gdf dtype tags used by this API layer (from gdf_dtype in cudf). -/
inductive GdfDtype
  | GDF_INT8
  | GDF_INT32
  | GDF_INT64
  | GDF_FLOAT32
  | GDF_FLOAT64
  deriving DecidableEq, Repr

/-- The gdf_error codes used by the functions under verification. -/
inductive GdfError
  | GDF_SUCCESS
  | GDF_CUDA_ERROR
  | GDF_INVALID_API_CALL
  | GDF_COLUMN_SIZE_MISMATCH
  | GDF_COLUMN_SIZE_TOO_BIG
  | GDF_UNSUPPORTED_DTYPE
  | GDF_DATASET_EMPTY
  | GDF_VALIDITY_UNSUPPORTED
  deriving DecidableEq, Repr

open GdfDtype GdfError

/-- A gdf_column: the device buffer it points at (as a list of integers; float
payloads are carried opaquely since the embedded functions never do arithmetic
on them), its dtype tag and its null count.  `size` is the list length. -/
structure gdf_column where
  data : List Int
  dtype : GdfDtype
  null_count : Nat
  deriving DecidableEq, Repr

/-- Number of entries of a column (the `size` field of gdf_column). -/
def gdf_column.size (c : gdf_column) : Nat := c.data.length

/-- gdf_adj_list: offsets/indices columns plus optional edge data. -/
structure gdf_adj_list where
  offsets : gdf_column
  indices : gdf_column
  edge_data : Option gdf_column
  ownership : Nat
  deriving DecidableEq, Repr

/-- gdf_edge_list: COO source/destination columns plus optional edge data. -/
structure gdf_edge_list where
  src_indices : gdf_column
  dest_indices : gdf_column
  edge_data : Option gdf_column
  ownership : Nat
  deriving DecidableEq, Repr

/-- gdf_graph: at most one of each representation is attached. -/
structure gdf_graph where
  edgeList : Option gdf_edge_list
  adjList : Option gdf_adj_list
  transposedAdjList : Option gdf_adj_list
  deriving DecidableEq, Repr

/-- The empty graph object (all representations null). -/
def gdf_graph.empty : gdf_graph := ⟨none, none, none⟩

/-! ## Renumbering (cugraph::renumber_vertices)

Modelled from the spec: the device implementation lives in renumber.cuh which
is not among the provided sources; only its caller gdf_renumber_vertices is.
Spec, section 4.1: "collect the set of distinct identifiers appearing in
either array (deduplicate), assign dense ids by a stable, reproducible order
(sorted order of original ids), emit mapping". -/

/-- Modelled from the spec: the numbering map of cugraph::renumber_vertices
(renumber.cuh, not under src/): the distinct identifiers appearing in either
input array, listed in sorted order; position in this list is the dense id. -/
def numbering_map (src dst : List Int) : List Int :=
  ((src ++ dst).dedup).insertionSort (fun a b => a ≤ b)

/-- Modelled from the spec: the dense id assigned to an original identifier is
its position in the sorted numbering map. -/
def dense_id (src dst : List Int) (x : Int) : Nat :=
  (numbering_map src dst).indexOf x

/-- Modelled from the spec: cugraph::renumber_vertices renumbers both arrays
through the shared numbering map and reports the dense range size. -/
def renumber_vertices (src dst : List Int) : List Int × List Int × Nat × List Int :=
  let m := numbering_map src dst
  (src.map (fun x => (m.indexOf x : Int)),
   dst.map (fun x => (m.indexOf x : Int)),
   m.length, m)

theorem numbering_map_nodup (src dst : List Int) : (numbering_map src dst).Nodup :=
  ((List.perm_insertionSort _ _).nodup_iff).mpr (List.nodup_dedup _)

theorem mem_numbering_map {src dst : List Int} {x : Int} :
    x ∈ numbering_map src dst ↔ x ∈ src ++ dst := by
  unfold numbering_map
  rw [List.mem_insertionSort, List.mem_dedup]

/-- The overflow guard of gdf_renumber_vertices: the source performs the
`new_size > 0x7fffffff` check only in the GDF_INT64 input branch
(src/cpp/src/cugraph.cu lines 191-199); the GDF_INT32 branch has no such
check, which this function renders by never firing on GDF_INT32. -/
def renumber_size_check (dtype : GdfDtype) (new_size : Nat) : Except GdfError Unit :=
  if dtype = GDF_INT64 ∧ new_size > 0x7fffffff then
    Except.error GDF_COLUMN_SIZE_TOO_BIG
  else
    Except.ok ()

/-- gdf_renumber_vertices (src/cpp/src/cugraph.cu lines 115-207): check sizes
and dtypes, renumber through cugraph::renumber_vertices, and (on the 64-bit
path only) fail with GDF_COLUMN_SIZE_TOO_BIG when the dense range exceeds
0x7fffffff.  On success it returns the renumbered source and destination
columns and the numbering map column. -/
def gdf_renumber_vertices (src dst : gdf_column) :
    Except GdfError (gdf_column × gdf_column × gdf_column) :=
  if src.data.length ≠ dst.data.length then Except.error GDF_COLUMN_SIZE_MISMATCH
  else if src.dtype ≠ dst.dtype then Except.error GDF_UNSUPPORTED_DTYPE
  else if ¬(src.dtype = GDF_INT32 ∨ src.dtype = GDF_INT64) then
    Except.error GDF_UNSUPPORTED_DTYPE
  else if src.data.length = 0 then Except.error GDF_DATASET_EMPTY
  else if src.dtype = GDF_INT32 then
    let r := renumber_vertices src.data dst.data
    Except.ok (⟨r.1, src.dtype, src.null_count⟩,
               ⟨r.2.1, dst.dtype, dst.null_count⟩,
               ⟨r.2.2.2, src.dtype, 0⟩)
  else
    let r := renumber_vertices src.data dst.data
    match renumber_size_check GDF_INT64 r.2.2.1 with
    | Except.error e => Except.error e
    | Except.ok _ =>
      Except.ok (⟨r.1, GDF_INT32, src.null_count⟩,
                 ⟨r.2.1, GDF_INT32, dst.null_count⟩,
                 ⟨r.2.2.2, src.dtype, 0⟩)

/-! ## COO to CSR conversion (ConvertCOOtoCSR / ConvertCOOtoCSR_weighted)

Modelled from the spec: the device converter lives in COOtoCSR.cuh which is
not among the provided sources; only its callers are.  Spec, section 4.2:
"stable counting sort by grouping key (source or destination) to produce
`offsets` via a prefix sum of per-vertex degree counts, then a scatter of
indices (and weights, if present) into position using the same prefix-sum
offsets as write cursors". -/

/-- Modelled from the spec: the per-vertex degree count of the grouping key
array (number of edges whose key equals vertex v). -/
def cooDegree (key : List Int) (v : Nat) : Nat :=
  key.countP (fun x => decide (x = (v : Int)))

/-- Modelled from the spec: the derived vertex count of the converter output
(one past the largest id appearing in either array; empty input gives 0). -/
def cooSize (src dst : List Int) : Nat :=
  if src.isEmpty then 0 else ((src ++ dst).map Int.toNat).foldr Nat.max 0 + 1

/-- Modelled from the spec: the offsets array, a prefix sum of the per-vertex
degree counts; entry v is the total degree of vertices below v. -/
def csrOffsets (key : List Int) (n : Nat) : List Int :=
  (List.range (n + 1)).map (fun v => ((∑ u ∈ Finset.range v, cooDegree key u : Nat) : Int))

/-- Modelled from the spec: the compressed index array, the non-key endpoints
scattered into position grouped by key vertex; the grouping is stable (the
relative order of parallel edges follows the input edge order). -/
def csrIndices (src dst : List Int) (n : Nat) : List Int :=
  (List.range n).flatMap
    (fun v => ((src.zip dst).filter (fun p => decide (p.1 = (v : Int)))).map Prod.snd)

/-- Modelled from the spec: the weights array scattered by the same stable
grouping as the index array. -/
def csrWeights (src dst w : List Int) (n : Nat) : List Int :=
  (List.range n).flatMap
    (fun v => (((src.zip dst).zip w).filter (fun p => decide (p.1.1 = (v : Int)))).map Prod.snd)

/-- The CSR_Result record filled in by ConvertCOOtoCSR. -/
structure CSR_Result where
  size : Nat
  rowOffsets : List Int
  colIndices : List Int
  deriving DecidableEq, Repr

/-- The CSR_Result_Weighted record filled in by ConvertCOOtoCSR_weighted. -/
structure CSR_Result_Weighted where
  size : Nat
  rowOffsets : List Int
  colIndices : List Int
  edgeWeights : List Int
  deriving DecidableEq, Repr

/-- Modelled from the spec: ConvertCOOtoCSR (COOtoCSR.cuh, not under src/). -/
def ConvertCOOtoCSR (src dst : List Int) : CSR_Result :=
  let n := cooSize src dst
  ⟨n, csrOffsets src n, csrIndices src dst n⟩

/-- Modelled from the spec: ConvertCOOtoCSR_weighted (COOtoCSR.cuh, not under
src/); offsets and indices are produced exactly as in the unweighted case and
the weights are carried through the same stable scatter. -/
def ConvertCOOtoCSR_weighted (src dst w : List Int) : CSR_Result_Weighted :=
  let n := cooSize src dst
  ⟨n, csrOffsets src n, csrIndices src dst n, csrWeights src dst w n⟩

/-! ## Building adjacency lists (src/cpp/src/cugraph.cu) -/

/-- gdf_add_adj_list_impl (src/cpp/src/cugraph.cu lines 241-278): convert the
attached edge list to CSR (weighted when edge data is attached) and attach the
result as the graph's adjacency list with ownership 1. -/
def gdf_add_adj_list_impl (graph : gdf_graph) : GdfError × gdf_graph :=
  match graph.adjList with
  | some _ => (GDF_SUCCESS, graph)
  | none =>
    match graph.edgeList with
    | none => (GDF_INVALID_API_CALL, graph)
    | some el =>
      match el.edge_data with
      | some w =>
        let r := ConvertCOOtoCSR_weighted el.src_indices.data el.dest_indices.data w.data
        (GDF_SUCCESS,
         { graph with adjList := some ⟨⟨r.rowOffsets, el.src_indices.dtype, 0⟩,
                                       ⟨r.colIndices, el.src_indices.dtype, 0⟩,
                                       some ⟨r.edgeWeights, w.dtype, 0⟩, 1⟩ })
      | none =>
        let r := ConvertCOOtoCSR el.src_indices.data el.dest_indices.data
        (GDF_SUCCESS,
         { graph with adjList := some ⟨⟨r.rowOffsets, el.src_indices.dtype, 0⟩,
                                       ⟨r.colIndices, el.src_indices.dtype, 0⟩,
                                       none, 1⟩ })

/-- gdf_add_adj_list (src/cpp/src/cugraph.cu lines 416-433): succeed when an
adjacency list already exists, require an INT32 edge list, dispatch on the
edge-data dtype (FLOAT32/FLOAT64 only) and run the converter. -/
def gdf_add_adj_list (graph : gdf_graph) : GdfError × gdf_graph :=
  match graph.adjList with
  | some _ => (GDF_SUCCESS, graph)
  | none =>
    match graph.edgeList with
    | none => (GDF_INVALID_API_CALL, graph)
    | some el =>
      if el.src_indices.dtype ≠ GDF_INT32 then (GDF_UNSUPPORTED_DTYPE, graph)
      else
        match el.edge_data with
        | some w =>
          if w.dtype = GDF_FLOAT32 ∨ w.dtype = GDF_FLOAT64 then gdf_add_adj_list_impl graph
          else (GDF_UNSUPPORTED_DTYPE, graph)
        | none => gdf_add_adj_list_impl graph

/-- cugraph::offsets_to_indices (graph_utils.cuh): expand a CSR offsets array
back into a COO source array, vertex v repeated degree-of-v times. -/
def offsets_to_indices (offsets : List Int) (n : Nat) : List Int :=
  (List.range n).flatMap
    (fun v => List.replicate ((offsets.getD (v + 1) 0).toNat - (offsets.getD v 0).toNat) (v : Int))

/-- gdf_add_edge_list (src/cpp/src/cugraph.cu lines 280-306): when no edge
list is attached, derive one from the adjacency list (sources expanded from
offsets, destinations aliasing the index column) with ownership 2. -/
def gdf_add_edge_list (graph : gdf_graph) : GdfError × gdf_graph :=
  match graph.edgeList with
  | some _ => (GDF_SUCCESS, graph)
  | none =>
    match graph.adjList with
    | none => (GDF_INVALID_API_CALL, graph)
    | some adj =>
      let d_src := offsets_to_indices adj.offsets.data (adj.offsets.data.length - 1)
      (GDF_SUCCESS,
       { graph with edgeList := some ⟨⟨d_src, adj.indices.dtype, 0⟩,
                                      adj.indices,
                                      adj.edge_data, 2⟩ })

/-- gdf_add_transposed_adj_list_impl (src/cpp/src/cugraph.cu lines 309-345):
run the COO-to-CSR converter over the edge list with the destination array as
the grouping key and the source array as the scattered index array (i.e. with
source and destination swapped), and attach the result as the transposed
adjacency list with ownership 1. -/
def gdf_add_transposed_adj_list_impl (graph : gdf_graph) : GdfError × gdf_graph :=
  match graph.transposedAdjList with
  | some _ => (GDF_SUCCESS, graph)
  | none =>
    match graph.edgeList with
    | none => (GDF_INVALID_API_CALL, graph)
    | some el =>
      match el.edge_data with
      | some w =>
        let r := ConvertCOOtoCSR_weighted el.dest_indices.data el.src_indices.data w.data
        (GDF_SUCCESS,
         { graph with transposedAdjList := some ⟨⟨r.rowOffsets, el.src_indices.dtype, 0⟩,
                                                 ⟨r.colIndices, el.src_indices.dtype, 0⟩,
                                                 some ⟨r.edgeWeights, w.dtype, 0⟩, 1⟩ })
      | none =>
        let r := ConvertCOOtoCSR el.dest_indices.data el.src_indices.data
        (GDF_SUCCESS,
         { graph with transposedAdjList := some ⟨⟨r.rowOffsets, el.src_indices.dtype, 0⟩,
                                                 ⟨r.colIndices, el.src_indices.dtype, 0⟩,
                                                 none, 1⟩ })

/-- gdf_add_transposed_adj_list (src/cpp/src/cugraph.cu lines 435-452), named
gdf_add_transpose in the older copy: materialize the edge list first when
absent, require INT32 ids, dispatch on the edge-data dtype and build the
transposed adjacency list. -/
def gdf_add_transposed_adj_list (graph : gdf_graph) : GdfError × gdf_graph :=
  let g1 := if graph.edgeList = none then (gdf_add_edge_list graph).2 else graph
  match g1.edgeList with
  | none =>
    -- The source would dereference a null edge list here; gdf_add_edge_list
    -- can only have failed with GDF_INVALID_API_CALL on an empty graph.
    (GDF_INVALID_API_CALL, g1)
  | some el =>
    if el.src_indices.dtype ≠ GDF_INT32 then (GDF_UNSUPPORTED_DTYPE, g1)
    else if el.dest_indices.dtype ≠ GDF_INT32 then (GDF_UNSUPPORTED_DTYPE, g1)
    else
      match el.edge_data with
      | some w =>
        if w.dtype = GDF_FLOAT32 ∨ w.dtype = GDF_FLOAT64 then gdf_add_transposed_adj_list_impl g1
        else (GDF_UNSUPPORTED_DTYPE, g1)
      | none => gdf_add_transposed_adj_list_impl g1

/-- The transpose-materialization step at the top of gdf_pagerank_impl
(unnamed/part_005 lines 379-381): when no transposed adjacency list is
attached, the pagerank entry point itself requests its materialization. -/
def gdf_pagerank_materialize_transpose (graph : gdf_graph) : gdf_graph :=
  if graph.transposedAdjList = none then (gdf_add_transposed_adj_list graph).2 else graph

/-- The specification's description of the transposed companion view
(spec section 4.3): exactly the offsets/indices[/weights] that the COO-to-CSR
converter produces when re-run on the edge list with the source and
destination arrays swapped. -/
def converter_on_swapped_edge_list (el : gdf_edge_list) : gdf_adj_list :=
  match el.edge_data with
  | some w =>
    let r := ConvertCOOtoCSR_weighted el.dest_indices.data el.src_indices.data w.data
    ⟨⟨r.rowOffsets, el.src_indices.dtype, 0⟩, ⟨r.colIndices, el.src_indices.dtype, 0⟩,
     some ⟨r.edgeWeights, w.dtype, 0⟩, 1⟩
  | none =>
    let r := ConvertCOOtoCSR el.dest_indices.data el.src_indices.data
    ⟨⟨r.rowOffsets, el.src_indices.dtype, 0⟩, ⟨r.colIndices, el.src_indices.dtype, 0⟩,
     none, 1⟩

/-! ## Breadth-first search (cugraph::Bfs)

Modelled from the spec: the single-device Bfs class lives in bfs.cuh which is
not among the provided sources; only its caller gdf_bfs is.  Spec, section
4.5, traversal shape: per level, mark the frontier visited, expand the
neighbors of each frontier vertex, record distance = level and predecessor =
discovering vertex exactly once per newly discovered vertex, and stop when the
frontier is empty; unreached vertices keep sentinel values. -/

/-- The neighbor list of vertex v in a CSR offsets/indices pair. -/
def neighborsOf (offsets indices : List Int) (v : Nat) : List Int :=
  let b := (offsets.getD v 0).toNat
  let e := (offsets.getD (v + 1) 0).toNat
  (indices.drop b).take (e - b)

/-- Per-vertex BFS output state: distances, predecessors, visited bitmap. -/
structure BfsState where
  dist : List Int
  pred : List Int
  visited : List Bool
  deriving DecidableEq, Repr

/-- Modelled from the spec: mark every frontier vertex in the visited bitmap
(step 1 of a traversal level). -/
def bfs_mark_visited (visited : List Bool) (frontier : List Int) : List Bool :=
  frontier.foldl (fun vis v => vis.set v.toNat true) visited

/-- Modelled from the spec: one traversal level.  The frontier is first marked
visited; then each frontier vertex's neighbor list is expanded in order, and a
neighbor that is neither visited nor already marked in this level's next
frontier bitmap gets distance = level, predecessor = the discovering vertex,
and a slot in the next frontier (exactly one writer wins per vertex). -/
def bfs_level (offsets indices : List Int) (level : Int) (frontier : List Int)
    (st : BfsState) : BfsState × List Int :=
  let visited1 := bfs_mark_visited st.visited frontier
  let expand := fun (acc : List Int × List Int × List Bool × List Int) (v : Int) =>
    (neighborsOf offsets indices v.toNat).foldl
      (fun acc u =>
        match acc with
        | (d, p, nb, nf) =>
          if visited1.getD u.toNat true ∨ nb.getD u.toNat true then (d, p, nb, nf)
          else (d.set u.toNat level, p.set u.toNat v, nb.set u.toNat true, nf ++ [u]))
      acc
  match frontier.foldl expand
      (st.dist, st.pred, List.replicate visited1.length false, []) with
  | (d, p, _, nf) => (⟨d, p, visited1⟩, nf)

/-- Modelled from the spec: the level loop, with fuel bounding the number of
levels; terminates when the frontier is empty. -/
def bfs_run (offsets indices : List Int) : Nat → Int → List Int → BfsState → BfsState
  | 0, _, _, st => st
  | Nat.succ fuel, level, frontier, st =>
    if frontier.isEmpty then st
    else
      let r := bfs_level offsets indices level frontier st
      bfs_run offsets indices fuel (level + 1) r.2 r.1

/-- Modelled from the spec: cugraph::Bfs configure + traverse (bfs.cuh, not
under src/).  Distances start at the INT_MAX sentinel except 0 at the start
vertex, predecessors start at the invalid id -1, and the level loop runs from
level 1 with the start vertex as the initial frontier. -/
def Bfs_traverse (n : Nat) (offsets indices : List Int) (source : Int) :
    List Int × List Int :=
  let dist0 := (List.replicate n (2147483647 : Int)).set source.toNat 0
  let pred0 := List.replicate n (-1 : Int)
  let st := bfs_run offsets indices (n + 1) 1 [source] ⟨dist0, pred0, List.replicate n false⟩
  (st.dist, st.pred)

/-- gdf_bfs (unnamed/part_005 lines 503-526): require a representation, build
the adjacency list, require INT32 offsets/indices/distances/predecessors, and
run Bfs from the start vertex, writing into the caller's output columns. -/
def gdf_bfs (graph : gdf_graph) (distances predecessors : gdf_column)
    (start_node : Int) (directed : Bool) : GdfError × gdf_column × gdf_column :=
  if graph.adjList = none ∧ graph.edgeList = none then
    (GDF_INVALID_API_CALL, distances, predecessors)
  else
    let res := gdf_add_adj_list graph
    if res.1 ≠ GDF_SUCCESS then (res.1, distances, predecessors)
    else
      match res.2.adjList with
      | none => (GDF_INVALID_API_CALL, distances, predecessors)
      | some adj =>
        if adj.offsets.dtype ≠ GDF_INT32 then (GDF_UNSUPPORTED_DTYPE, distances, predecessors)
        else if adj.indices.dtype ≠ GDF_INT32 then (GDF_UNSUPPORTED_DTYPE, distances, predecessors)
        else if distances.dtype ≠ GDF_INT32 then (GDF_UNSUPPORTED_DTYPE, distances, predecessors)
        else if predecessors.dtype ≠ GDF_INT32 then (GDF_UNSUPPORTED_DTYPE, distances, predecessors)
        else
          let n := adj.offsets.data.length - 1
          let r := Bfs_traverse n adj.offsets.data adj.indices.data start_node
          (GDF_SUCCESS, ⟨r.1, distances.dtype, distances.null_count⟩,
                        ⟨r.2, predecessors.dtype, predecessors.null_count⟩)

/-! ## Degree-bucketed dispatch workers (unnamed/part_005, worker_kernels)

The kernels are data-parallel over threads or blocks; sequentially their
effect is the list of operator applications (source, neighbor) performed, in
bucket order.  An empty effect list means no kernel was launched and no state
was touched. -/

/-- A DegreeBucket (vertex_binning.cuh): the vertex-id list of the bucket, its
length, and the ceil-log2 degree boundaries of the bucket. -/
structure DegreeBucket where
  vertexIds : List Int
  numberOfVertices : Nat
  ceilLogDegreeStart : Nat
  ceilLogDegreeEnd : Nat
  deriving DecidableEq, Repr

/-- kernel_per_vertex_worker_weightless (unnamed/part_005 lines 721-742): all
threads cooperate on one bucket vertex at a time, applying the operator to
each of its out-edges. -/
def kernel_per_vertex_worker_weightless (offsets indices : List Int)
    (vertexIds : List Int) (numberOfVertices : Nat) : List (Int × Int) :=
  (vertexIds.take numberOfVertices).flatMap
    (fun source => (neighborsOf offsets indices source.toNat).map (fun nb => (source, nb)))

/-- block_per_vertex_worker_weightless (unnamed/part_005 lines 762-780): one
block per bucket vertex, the block's threads striding over its out-edges. -/
def block_per_vertex_worker_weightless (offsets indices : List Int)
    (vertexIds : List Int) (numberOfVertices : Nat) : List (Int × Int) :=
  (vertexIds.take numberOfVertices).flatMap
    (fun source => (neighborsOf offsets indices source.toNat).map (fun nb => (source, nb)))

/-- large_vertex_worker (unnamed/part_005 lines 744-760): launches the
per-vertex kernel only when the bucket is non-empty. -/
def large_vertex_worker (offsets indices : List Int) (bucket : DegreeBucket) :
    List (Int × Int) :=
  if bucket.numberOfVertices ≠ 0 then
    kernel_per_vertex_worker_weightless offsets indices bucket.vertexIds bucket.numberOfVertices
  else []

/-- medium_vertex_worker (unnamed/part_005 lines 782-798): block count is the
bucket size; launches the block-per-vertex kernel only when it is non-zero. -/
def medium_vertex_worker (offsets indices : List Int) (bucket : DegreeBucket) :
    List (Int × Int) :=
  let block_count := bucket.numberOfVertices
  if block_count ≠ 0 then
    block_per_vertex_worker_weightless offsets indices bucket.vertexIds bucket.numberOfVertices
  else []

/-- The block-size selection of small_vertex_worker (unnamed/part_005 lines
807-811), driven by the bucket's ceil-log2 degree end. -/
def small_vertex_block_size (ceilLogDegreeEnd : Nat) : Nat :=
  if ceilLogDegreeEnd < 6 then 32
  else if ceilLogDegreeEnd < 8 then 64
  else if ceilLogDegreeEnd < 10 then 128
  else if ceilLogDegreeEnd < 12 then 512
  else 512

/-- small_vertex_worker (unnamed/part_005 lines 800-820): picks a block size
from the bucket's degree range and launches the block-per-vertex kernel only
when the bucket is non-empty. -/
def small_vertex_worker (offsets indices : List Int) (bucket : DegreeBucket) :
    List (Int × Int) :=
  let _block_size := small_vertex_block_size bucket.ceilLogDegreeEnd
  let block_count := bucket.numberOfVertices
  if block_count ≠ 0 then
    block_per_vertex_worker_weightless offsets indices bucket.vertexIds bucket.numberOfVertices
  else []

/-! ## Pagerank status handling (unnamed/part_005, gdf_pagerank_impl) -/

/-- Outcome of the tail of gdf_pagerank_impl: the returned gdf_error, the
caller's pagerank column buffer after the call, and whether the
did-not-converge warning message was printed to stderr. -/
structure PagerankPostResult where
  err : GdfError
  out : List Int
  warned : Bool
  deriving DecidableEq, Repr

/-- The status handling at the tail of gdf_pagerank_impl (unnamed/part_005
lines 398-415).  The inner solver cugraph::pagerank (pagerank.cuh, not under
src/) reports status 0 on convergence, 1 when max_iter was reached without
reaching the tolerance, and -1 for bad parameters; d_pr holds its last
computed per-vertex values.  On any non-zero status the function returns
GDF_CUDA_ERROR at once (printing the warning message for status 1) and only
on status 0 does it copy d_pr into the caller's pagerank column. -/
def gdf_pagerank_impl_post (status : Int) (d_pr : List Int) (out0 : List Int) :
    PagerankPostResult :=
  if status ≠ 0 then
    if status = -1 then ⟨GDF_CUDA_ERROR, out0, false⟩
    else if status = 1 then ⟨GDF_CUDA_ERROR, out0, true⟩
    else ⟨GDF_CUDA_ERROR, out0, false⟩
  else ⟨GDF_SUCCESS, d_pr, false⟩

/-! ## Graph view constructors (src/cpp/src/cugraph.cu) -/

/-- gdf_adj_list_view (src/cpp/src/cugraph.cu lines 67-95): refuse with
GDF_INVALID_API_CALL when the graph object already holds any representation,
validate the columns, then attach the adjacency view with ownership 0.  As in
the source, the adjacency list is attached before the edge-data size check, so
that failure path leaves a partially attached view (edge_data not yet set). -/
def gdf_adj_list_view (graph : gdf_graph) (offsets indices : gdf_column)
    (edge_data : Option gdf_column) : GdfError × gdf_graph :=
  if ¬(graph.edgeList = none ∧ graph.adjList = none ∧ graph.transposedAdjList = none) then
    (GDF_INVALID_API_CALL, graph)
  else if offsets.null_count ≠ 0 then (GDF_VALIDITY_UNSUPPORTED, graph)
  else if indices.null_count ≠ 0 then (GDF_VALIDITY_UNSUPPORTED, graph)
  else if offsets.dtype ≠ indices.dtype then (GDF_UNSUPPORTED_DTYPE, graph)
  else if ¬(offsets.dtype = GDF_INT32 ∨ offsets.dtype = GDF_INT64) then
    (GDF_UNSUPPORTED_DTYPE, graph)
  else if ¬(0 < offsets.data.length) then (GDF_DATASET_EMPTY, graph)
  else
    match edge_data with
    | some ed =>
      if indices.data.length ≠ ed.data.length then
        (GDF_COLUMN_SIZE_MISMATCH, { graph with adjList := some ⟨offsets, indices, none, 0⟩ })
      else (GDF_SUCCESS, { graph with adjList := some ⟨offsets, indices, some ed, 0⟩ })
    | none => (GDF_SUCCESS, { graph with adjList := some ⟨offsets, indices, none, 0⟩ })

/-- gdf_edge_list_view (src/cpp/src/cugraph.cu lines 209-239): refuse with
GDF_INVALID_API_CALL when the graph object already holds any representation,
validate the columns, then attach the edge-list view with ownership 0.  As in
the source, the edge list is attached before the edge-data size check. -/
def gdf_edge_list_view (graph : gdf_graph) (src_indices dest_indices : gdf_column)
    (edge_data : Option gdf_column) : GdfError × gdf_graph :=
  if ¬(graph.edgeList = none ∧ graph.adjList = none ∧ graph.transposedAdjList = none) then
    (GDF_INVALID_API_CALL, graph)
  else if src_indices.data.length ≠ dest_indices.data.length then
    (GDF_COLUMN_SIZE_MISMATCH, graph)
  else if src_indices.dtype ≠ dest_indices.dtype then (GDF_UNSUPPORTED_DTYPE, graph)
  else if ¬(src_indices.dtype = GDF_INT32 ∨ src_indices.dtype = GDF_INT64) then
    (GDF_UNSUPPORTED_DTYPE, graph)
  else if ¬(0 < src_indices.data.length) then (GDF_DATASET_EMPTY, graph)
  else if src_indices.null_count ≠ 0 then (GDF_VALIDITY_UNSUPPORTED, graph)
  else if dest_indices.null_count ≠ 0 then (GDF_VALIDITY_UNSUPPORTED, graph)
  else
    match edge_data with
    | some ed =>
      if src_indices.data.length ≠ ed.data.length then
        (GDF_COLUMN_SIZE_MISMATCH,
         { graph with edgeList := some ⟨src_indices, dest_indices, none, 0⟩ })
      else (GDF_SUCCESS, { graph with edgeList := some ⟨src_indices, dest_indices, some ed, 0⟩ })
    | none => (GDF_SUCCESS, { graph with edgeList := some ⟨src_indices, dest_indices, none, 0⟩ })

/-! ## Theorems -/

/-- Claim C5: for the unweighted 4-vertex directed cycle with edges 0 to 1,
1 to 2, 2 to 3 and 3 to 0, breadth-first search via gdf_bfs started at vertex
0 succeeds and writes distances [0,1,2,3] and predecessors [-1,0,1,2] into the
caller's output columns. -/
theorem claim_C5_bfs_cycle :
    gdf_bfs ⟨some ⟨⟨[0, 1, 2, 3], GDF_INT32, 0⟩, ⟨[1, 2, 3, 0], GDF_INT32, 0⟩, none, 0⟩,
             none, none⟩
        ⟨[0, 0, 0, 0], GDF_INT32, 0⟩ ⟨[0, 0, 0, 0], GDF_INT32, 0⟩ 0 true =
      (GDF_SUCCESS, ⟨[0, 1, 2, 3], GDF_INT32, 0⟩, ⟨[-1, 0, 1, 2], GDF_INT32, 0⟩) := by
  decide

/-- Claim C9: a degree bucket holding zero vertices makes each of the three
degree-bucketed dispatch functions launch no kernel: the list of operator
applications each performs is empty, so no state is touched. -/
theorem claim_C9_empty_bucket_no_work (offsets indices : List Int) (bucket : DegreeBucket)
    (h : bucket.numberOfVertices = 0) :
    large_vertex_worker offsets indices bucket = [] ∧
    medium_vertex_worker offsets indices bucket = [] ∧
    small_vertex_worker offsets indices bucket = [] := by
  refine ⟨?_, ?_, ?_⟩ <;> simp [large_vertex_worker, medium_vertex_worker, small_vertex_worker, h]

/-- Witness for claim C9 at a concrete empty bucket on a concrete graph. -/
theorem claim_C9_empty_bucket_no_work_witness :
    large_vertex_worker [0, 1, 2] [1, 0] ⟨[], 0, 0, 2⟩ = [] ∧
    medium_vertex_worker [0, 1, 2] [1, 0] ⟨[], 0, 0, 2⟩ = [] ∧
    small_vertex_worker [0, 1, 2] [1, 0] ⟨[], 0, 0, 2⟩ = [] :=
  claim_C9_empty_bucket_no_work [0, 1, 2] [1, 0] ⟨[], 0, 0, 2⟩ (by decide)

/-- Claim C10: a graph object that already holds any representation (edge
list, adjacency list or transposed adjacency list attached) is refused by
both gdf_adj_list_view and gdf_edge_list_view with GDF_INVALID_API_CALL, and
the graph object is left unchanged. -/
theorem claim_C10_view_refuses_nonempty_graph (g : gdf_graph)
    (offsets indices srcCol dstCol : gdf_column) (ed1 ed2 : Option gdf_column)
    (h : g.edgeList ≠ none ∨ g.adjList ≠ none ∨ g.transposedAdjList ≠ none) :
    gdf_adj_list_view g offsets indices ed1 = (GDF_INVALID_API_CALL, g) ∧
    gdf_edge_list_view g srcCol dstCol ed2 = (GDF_INVALID_API_CALL, g) := by
  have hg : ¬(g.edgeList = none ∧ g.adjList = none ∧ g.transposedAdjList = none) := by
    rcases h with h | h | h <;> intro hc
    · exact h hc.1
    · exact h hc.2.1
    · exact h hc.2.2
  constructor
  · unfold gdf_adj_list_view
    rw [if_pos hg]
  · unfold gdf_edge_list_view
    rw [if_pos hg]

/-- Witness for claim C10 on a concrete graph already holding an edge list. -/
theorem claim_C10_view_refuses_nonempty_graph_witness :
    gdf_adj_list_view ⟨some ⟨⟨[0], GDF_INT32, 0⟩, ⟨[0], GDF_INT32, 0⟩, none, 0⟩, none, none⟩
        ⟨[0, 1], GDF_INT32, 0⟩ ⟨[0], GDF_INT32, 0⟩ none =
      (GDF_INVALID_API_CALL,
       ⟨some ⟨⟨[0], GDF_INT32, 0⟩, ⟨[0], GDF_INT32, 0⟩, none, 0⟩, none, none⟩) ∧
    gdf_edge_list_view ⟨some ⟨⟨[0], GDF_INT32, 0⟩, ⟨[0], GDF_INT32, 0⟩, none, 0⟩, none, none⟩
        ⟨[0], GDF_INT32, 0⟩ ⟨[0], GDF_INT32, 0⟩ none =
      (GDF_INVALID_API_CALL,
       ⟨some ⟨⟨[0], GDF_INT32, 0⟩, ⟨[0], GDF_INT32, 0⟩, none, 0⟩, none, none⟩) :=
  claim_C10_view_refuses_nonempty_graph _ _ _ _ _ _ _ (Or.inl (by decide))

/-- Counterexample to claim C1 as stated: with solver status 1 (iteration cap
reached without convergence, last computed values [7]) and caller output
buffer [0], gdf_pagerank_impl does not both avoid a hard failure and copy the
last computed values: it returns GDF_CUDA_ERROR and leaves the output at [0]. -/
theorem claim_C1_counterexample :
    ¬((gdf_pagerank_impl_post 1 [7] [0]).err ≠ GDF_CUDA_ERROR ∧
      (gdf_pagerank_impl_post 1 [7] [0]).out = [7]) := by
  decide

/-- Claim C1 as amended: when the inner pagerank solver reports status 1
(iteration cap reached without the convergence metric dropping below the
tolerance), gdf_pagerank_impl prints the warning message but returns the hard
failure GDF_CUDA_ERROR and leaves the caller's output column unchanged — the
last computed per-vertex values are not copied out. -/
theorem claim_C1_cap_hit_is_hard_failure (status : Int) (d_pr out0 : List Int)
    (h : status = 1) :
    gdf_pagerank_impl_post status d_pr out0 = ⟨GDF_CUDA_ERROR, out0, true⟩ := by
  subst h
  simp [gdf_pagerank_impl_post]

/-- Witness for the amended claim C1 at concrete solver output. -/
theorem claim_C1_cap_hit_is_hard_failure_witness :
    gdf_pagerank_impl_post 1 [7] [0] = ⟨GDF_CUDA_ERROR, [0], true⟩ :=
  claim_C1_cap_hit_is_hard_failure 1 [7] [0] rfl

/-- Counterexample to claim C6 as stated: the overflow guard of
gdf_renumber_vertices does not apply on every accepted input path; at dense
size 2^31 (which exceeds the maximum representable 32-bit vertex id 2^31 - 1)
the guard passes on the GDF_INT32 input path while firing on the GDF_INT64
input path. -/
theorem claim_C6_counterexample :
    renumber_size_check GDF_INT32 (2 ^ 31) = Except.ok () ∧
    renumber_size_check GDF_INT64 (2 ^ 31) = Except.error GDF_COLUMN_SIZE_TOO_BIG ∧
    2 ^ 31 > 0x7fffffff := by
  refine ⟨by simp [renumber_size_check], by norm_num [renumber_size_check], by norm_num⟩

/-- Claim C6 as amended: the overflow guard applies only on the 64-bit input
path.  For a 32-bit identifier input, gdf_renumber_vertices never returns
GDF_COLUMN_SIZE_TOO_BIG — the 32-bit branch performs no vertex-count ceiling
check at all (the 64-bit branch does, as renumber_size_check shows). -/
theorem claim_C6_no_overflow_check_on_int32 (src dst : gdf_column)
    (h32 : src.dtype = GDF_INT32) :
    gdf_renumber_vertices src dst ≠ Except.error GDF_COLUMN_SIZE_TOO_BIG := by
  unfold gdf_renumber_vertices
  split
  · simp
  split
  · simp
  split
  · simp
  split
  · simp
  simp

/-- Witness for the amended claim C6 at a concrete 32-bit input. -/
theorem claim_C6_no_overflow_check_on_int32_witness :
    gdf_renumber_vertices ⟨[5, 7], GDF_INT32, 0⟩ ⟨[7, 5], GDF_INT32, 0⟩ ≠
      Except.error GDF_COLUMN_SIZE_TOO_BIG :=
  claim_C6_no_overflow_check_on_int32 ⟨[5, 7], GDF_INT32, 0⟩ ⟨[7, 5], GDF_INT32, 0⟩ rfl

/-- Claim C4: renumbering assigns dense ids in the sorted order of the
distinct original identifiers.  Renumbering is a pure function of its input,
hence deterministic and repeatable.  For source ids [10,10,30,40] and
destination ids [30,40,10,10], gdf_renumber_vertices succeeds with a dense
space of size 3 (the numbering map column holds exactly [10,30,40], sorted)
and the mapping sends 10 to 0, 30 to 1 and 40 to 2. -/
theorem claim_C4_renumber_sorted_scenario :
    gdf_renumber_vertices ⟨[10, 10, 30, 40], GDF_INT32, 0⟩ ⟨[30, 40, 10, 10], GDF_INT32, 0⟩ =
      Except.ok (⟨[0, 0, 1, 2], GDF_INT32, 0⟩, ⟨[1, 2, 0, 0], GDF_INT32, 0⟩,
                 ⟨[10, 30, 40], GDF_INT32, 0⟩) ∧
    numbering_map [10, 10, 30, 40] [30, 40, 10, 10] = [10, 30, 40] ∧
    List.Sorted (fun a b => a < b) (numbering_map [10, 10, 30, 40] [30, 40, 10, 10]) ∧
    dense_id [10, 10, 30, 40] [30, 40, 10, 10] 10 = 0 ∧
    dense_id [10, 10, 30, 40] [30, 40, 10, 10] 30 = 1 ∧
    dense_id [10, 10, 30, 40] [30, 40, 10, 10] 40 = 2 := by
  refine ⟨?_, by decide, by decide, by decide, by decide, by decide⟩
  rfl

/-- Claim C7: gdf_renumber_vertices fails with GDF_COLUMN_SIZE_MISMATCH
whenever the two input arrays differ in length, and with
GDF_UNSUPPORTED_DTYPE whenever (the lengths agreeing, so that the earlier
check does not fire first) the identifier type shared by the two columns is
neither GDF_INT32 nor GDF_INT64.  In both cases the error result carries no
renumbered columns: no renumbering work is performed. -/
theorem claim_C7_renumber_eager_checks (src dst : gdf_column) :
    (src.data.length ≠ dst.data.length →
      gdf_renumber_vertices src dst = Except.error GDF_COLUMN_SIZE_MISMATCH) ∧
    (src.data.length = dst.data.length → src.dtype = dst.dtype →
      src.dtype ≠ GDF_INT32 → src.dtype ≠ GDF_INT64 →
      gdf_renumber_vertices src dst = Except.error GDF_UNSUPPORTED_DTYPE) := by
  constructor
  · intro h
    unfold gdf_renumber_vertices
    rw [if_pos h]
  · intro hlen hdty h32 h64
    unfold gdf_renumber_vertices
    rw [if_neg (by simpa using hlen), if_neg (by simpa using hdty), if_pos]
    intro hc
    rcases hc with hc | hc
    · exact h32 hc
    · exact h64 hc

/-- Witness for claim C7: a length mismatch and a float-typed identifier
input, each hitting its eager check. -/
theorem claim_C7_renumber_eager_checks_witness :
    gdf_renumber_vertices ⟨[1], GDF_INT32, 0⟩ ⟨[1, 2], GDF_INT32, 0⟩ =
      Except.error GDF_COLUMN_SIZE_MISMATCH ∧
    gdf_renumber_vertices ⟨[1], GDF_FLOAT32, 0⟩ ⟨[2], GDF_FLOAT32, 0⟩ =
      Except.error GDF_UNSUPPORTED_DTYPE :=
  ⟨(claim_C7_renumber_eager_checks ⟨[1], GDF_INT32, 0⟩ ⟨[1, 2], GDF_INT32, 0⟩).1 (by decide),
   (claim_C7_renumber_eager_checks ⟨[1], GDF_FLOAT32, 0⟩ ⟨[2], GDF_FLOAT32, 0⟩).2
     rfl rfl (by decide) (by decide)⟩

/-- The edge-data dtype condition under which the transpose dispatch selects
a converter instantiation (FLOAT32 or FLOAT64 edge data, or no edge data). -/
def edge_data_dtype_ok : Option gdf_column → Prop
  | none => True
  | some w => w.dtype = GDF_FLOAT32 ∨ w.dtype = GDF_FLOAT64

/-- Claim C8: for a graph holding an edge list and no transposed adjacency
list, the transposed adjacency list that the pagerank entry point itself
materializes (gdf_pagerank_impl calls the transpose builder when the
transposed list is absent) is exactly the offsets/indices[/weights] triple the
COO-to-CSR converter produces when re-run on the edge list with the source and
destination arrays swapped. -/
theorem claim_C8_transpose_is_converter_on_swapped (g : gdf_graph) (el : gdf_edge_list)
    (hel : g.edgeList = some el)
    (ht : g.transposedAdjList = none)
    (hs : el.src_indices.dtype = GDF_INT32)
    (hd : el.dest_indices.dtype = GDF_INT32)
    (hw : edge_data_dtype_ok el.edge_data) :
    (gdf_pagerank_materialize_transpose g).transposedAdjList =
      some (converter_on_swapped_edge_list el) := by
  cases hed : el.edge_data with
  | none =>
    simp [gdf_pagerank_materialize_transpose, gdf_add_transposed_adj_list,
          gdf_add_transposed_adj_list_impl, converter_on_swapped_edge_list,
          hel, ht, hs, hd, hed]
  | some w =>
    rw [hed] at hw
    rcases hw with h | h <;>
      simp [gdf_pagerank_materialize_transpose, gdf_add_transposed_adj_list,
            gdf_add_transposed_adj_list_impl, converter_on_swapped_edge_list,
            hel, ht, hs, hd, hed, h]

/-- Witness for claim C8 on the concrete unweighted 4-cycle edge list. -/
theorem claim_C8_transpose_is_converter_on_swapped_witness :
    (gdf_pagerank_materialize_transpose
        ⟨some ⟨⟨[0, 1, 2, 3], GDF_INT32, 0⟩, ⟨[1, 2, 3, 0], GDF_INT32, 0⟩, none, 0⟩,
         none, none⟩).transposedAdjList =
      some (converter_on_swapped_edge_list
        ⟨⟨[0, 1, 2, 3], GDF_INT32, 0⟩, ⟨[1, 2, 3, 0], GDF_INT32, 0⟩, none, 0⟩) :=
  claim_C8_transpose_is_converter_on_swapped _ _ rfl rfl rfl rfl trivial

/-- Looking up a member's index in a list returns the member. -/
theorem getD_indexOf_of_mem {m : List Int} {x : Int} (hx : x ∈ m) :
    m.getD (m.indexOf x) 0 = x := by
  have hlt : m.indexOf x < m.length := List.indexOf_lt_length.mpr hx
  rw [List.getD_eq_getElem m 0 hlt]
  exact List.getElem_indexOf hlt

/-- Mapping a list to indices in a covering list and back is the identity. -/
theorem renumber_map_back {m L : List Int} (hL : ∀ x ∈ L, x ∈ m) :
    (L.map (fun x => ((m.indexOf x : Nat) : Int))).map (fun d => m.getD d.toNat 0) = L := by
  rw [List.map_map]
  have h2 : ∀ x ∈ L,
      ((fun d : Int => m.getD d.toNat 0) ∘ (fun x : Int => ((m.indexOf x : Nat) : Int))) x
        = id x := by
    intro x hx
    simp only [Function.comp_apply, Int.toNat_natCast, id]
    exact getD_indexOf_of_mem (hL x hx)
  rw [List.map_congr_left h2, List.map_id]

/-- Claim C2: whenever gdf_renumber_vertices accepts a pair of same-length
identifier arrays and succeeds, the produced numbering map and dense-id
arrays satisfy the round-trip: mapping the dense source and destination
arrays back through the numbering map reproduces the original (source,
destination) pairs exactly, and for every dense id j produced the numbering
map entry at j is the unique original identifier whose dense id is j. -/
theorem claim_C2_renumber_roundtrip (src dst sr dr m : gdf_column)
    (h : gdf_renumber_vertices src dst = Except.ok (sr, dr, m)) :
    sr.data.map (fun d => m.data.getD d.toNat 0) = src.data ∧
    dr.data.map (fun d => m.data.getD d.toNat 0) = dst.data ∧
    ∀ j, j < m.data.length → m.data.indexOf (m.data.getD j 0) = j := by
  unfold gdf_renumber_vertices at h
  split at h
  · simp at h
  split at h
  · simp at h
  split at h
  · simp at h
  split at h
  · simp at h
  split at h
  · simp only [renumber_vertices, Except.ok.injEq, Prod.mk.injEq] at h
    obtain ⟨h1, h2, h3⟩ := h
    subst h1; subst h2; subst h3
    refine ⟨renumber_map_back ?_, renumber_map_back ?_, ?_⟩
    · intro x hx
      exact mem_numbering_map.mpr (List.mem_append_left _ hx)
    · intro x hx
      exact mem_numbering_map.mpr (List.mem_append_right _ hx)
    · intro j hj
      rw [List.getD_eq_getElem _ 0 hj]
      exact List.indexOf_getElem (numbering_map_nodup _ _) j hj
  · simp only [renumber_vertices] at h
    split at h
    · simp at h
    simp only [Except.ok.injEq, Prod.mk.injEq] at h
    obtain ⟨h1, h2, h3⟩ := h
    subst h1; subst h2; subst h3
    refine ⟨renumber_map_back ?_, renumber_map_back ?_, ?_⟩
    · intro x hx
      exact mem_numbering_map.mpr (List.mem_append_left _ hx)
    · intro x hx
      exact mem_numbering_map.mpr (List.mem_append_right _ hx)
    · intro j hj
      rw [List.getD_eq_getElem _ 0 hj]
      exact List.indexOf_getElem (numbering_map_nodup _ _) j hj

/-- Witness for claim C2 at a concrete renumbering call. -/
theorem claim_C2_renumber_roundtrip_witness :
    ([0, 1] : List Int).map
        (fun d => (⟨[5, 7], GDF_INT32, 0⟩ : gdf_column).data.getD d.toNat 0) = [5, 7] ∧
    ([1, 0] : List Int).map
        (fun d => (⟨[5, 7], GDF_INT32, 0⟩ : gdf_column).data.getD d.toNat 0) = [7, 5] ∧
    ∀ j, j < (⟨[5, 7], GDF_INT32, 0⟩ : gdf_column).data.length →
      (⟨[5, 7], GDF_INT32, 0⟩ : gdf_column).data.indexOf
        ((⟨[5, 7], GDF_INT32, 0⟩ : gdf_column).data.getD j 0) = j :=
  claim_C2_renumber_roundtrip ⟨[5, 7], GDF_INT32, 0⟩ ⟨[7, 5], GDF_INT32, 0⟩
    ⟨[0, 1], GDF_INT32, 0⟩ ⟨[1, 0], GDF_INT32, 0⟩ ⟨[5, 7], GDF_INT32, 0⟩ rfl

/-- A member of a list of naturals is bounded by the fold of Nat.max over it. -/
theorem le_foldr_max {l : List Nat} {a : Nat} (ha : a ∈ l) : a ≤ l.foldr Nat.max 0 := by
  induction l with
  | nil => cases ha
  | cons b tl ih =>
    rcases List.mem_cons.mp ha with h | h
    · subst h
      exact Nat.le_max_left _ _
    · exact le_trans (ih h) (Nat.le_max_right _ _)

/-- Every nonnegative id appearing in the input arrays lies below the derived
vertex count of the converter. -/
theorem mem_lt_cooSize {src dst : List Int} {x : Int} (hx : x ∈ src ++ dst)
    (hs : ¬src.isEmpty) (hxpos : 0 ≤ x) : x < (cooSize src dst : Int) := by
  unfold cooSize
  rw [if_neg hs]
  have h1 : x.toNat ∈ (src ++ dst).map Int.toNat := List.mem_map_of_mem _ hx
  have h2 : x.toNat ≤ ((src ++ dst).map Int.toNat).foldr Nat.max 0 := le_foldr_max h1
  have h3 : x.toNat < ((src ++ dst).map Int.toNat).foldr Nat.max 0 + 1 := Nat.lt_succ_of_le h2
  calc x = (x.toNat : Int) := (Int.toNat_of_nonneg hxpos).symm
  _ < _ := by exact_mod_cast h3

/-- The first converter offset is zero. -/
theorem csrOffsets_getD_zero (key : List Int) (n : Nat) :
    (csrOffsets key n).getD 0 0 = 0 := by
  unfold csrOffsets
  have h : 0 < (List.range (n + 1)).length := by simp
  rw [List.getD_eq_getElem _ 0 (by simp)]
  simp

/-- The converter offsets are monotonically non-decreasing. -/
theorem csrOffsets_sorted (key : List Int) (n : Nat) :
    List.Sorted (fun a b => a ≤ b) (csrOffsets key n) := by
  unfold csrOffsets List.Sorted
  rw [List.pairwise_map]
  apply List.Pairwise.imp ?_ (List.pairwise_lt_range (n + 1))
  intro a b hab
  have : (∑ u ∈ Finset.range a, cooDegree key u) ≤ ∑ u ∈ Finset.range b, cooDegree key u :=
    Finset.sum_le_sum_of_subset (Finset.range_subset.mpr (le_of_lt hab))
  exact_mod_cast this

/-- The last converter offset is the total degree of all vertices. -/
theorem csrOffsets_getLast (key : List Int) (n : Nat) :
    (csrOffsets key n).getLast? =
      some ((∑ u ∈ Finset.range n, cooDegree key u : Nat) : Int) := by
  unfold csrOffsets
  rw [List.range_succ, List.map_append]
  simp

/-- Summing the per-vertex degree counts over the full dense range counts
every edge exactly once. -/
theorem sum_cooDegree_eq_length {src : List Int} {n : Nat}
    (h : ∀ x ∈ src, 0 ≤ x ∧ x < (n : Int)) :
    (∑ v ∈ Finset.range n, cooDegree src v) = src.length := by
  induction src with
  | nil => simp [cooDegree]
  | cons a tl ih =>
    have ha := h a (List.mem_cons_self a tl)
    have htl : ∀ x ∈ tl, 0 ≤ x ∧ x < (n : Int) := fun x hx => h x (List.mem_cons_of_mem a hx)
    simp only [cooDegree, List.countP_cons] at *
    rw [Finset.sum_add_distrib, ih htl]
    have hone : (∑ v ∈ Finset.range n, if decide (a = (v : Int)) = true then 1 else 0) = 1 := by
      have hcong : ∀ v ∈ Finset.range n,
          (if decide (a = (v : Int)) = true then 1 else 0) =
            (if v = a.toNat then 1 else 0) := by
        intro v hv
        congr 1
        simp only [decide_eq_true_eq, eq_iff_iff]
        constructor
        · intro he
          rw [he, Int.toNat_natCast]
        · intro he
          rw [he, Int.toNat_of_nonneg ha.1]
      rw [Finset.sum_congr rfl hcong, Finset.sum_ite_eq' (Finset.range n) a.toNat (fun _ => 1)]
      rw [if_pos]
      rw [Finset.mem_range]
      have h2 := ha.2
      omega
    rw [hone]
    simp only [List.length_cons]

/-- The scattered index array has exactly one entry per input edge. -/
theorem csrIndices_length {src dst : List Int} {n : Nat} (hlen : src.length = dst.length)
    (h : ∀ x ∈ src, 0 ≤ x ∧ x < (n : Int)) :
    (csrIndices src dst n).length = src.length := by
  unfold csrIndices
  rw [List.length_flatMap]
  have hcongr : List.map (List.length ∘ fun (v : Nat) =>
        List.map Prod.snd (List.filter (fun p => decide (p.1 = (v : Int))) (src.zip dst)))
        (List.range n) =
      List.map (cooDegree src) (List.range n) := by
    apply List.map_congr_left
    intro v _
    simp only [Function.comp_apply, List.length_map, ← List.countP_eq_length_filter]
    unfold cooDegree
    conv_rhs => rw [← List.map_fst_zip src dst (le_of_eq hlen)]
    rw [List.countP_map]
    rfl
  rw [hcongr]
  exact sum_cooDegree_eq_length h

/-- Every entry of the scattered index array is a destination id. -/
theorem csrIndices_mem {src dst : List Int} {n : Nat} {x : Int}
    (hx : x ∈ csrIndices src dst n) : x ∈ dst := by
  unfold csrIndices at hx
  rw [List.mem_flatMap] at hx
  obtain ⟨v, _, hxv⟩ := hx
  rw [List.mem_map] at hxv
  obtain ⟨p, hp, hpx⟩ := hxv
  have hpz : p ∈ src.zip dst := List.mem_of_mem_filter hp
  rw [← hpx]
  exact (List.of_mem_zip hpz).2

/-- A list with a member is not empty. -/
theorem src_not_empty_of_mem {src : List Int} {x : Int} (hx : x ∈ src) :
    ¬src.isEmpty = true := by
  intro hemp
  rw [List.isEmpty_iff.mp hemp] at hx
  cases hx

/-- The CSR invariants of the converter output at the derived vertex count. -/
theorem csr_invariants (src dst : List Int) (hlen : src.length = dst.length)
    (hpos : ∀ x ∈ src ++ dst, 0 ≤ x) :
    (csrOffsets src (cooSize src dst)).getD 0 0 = 0 ∧
    List.Sorted (fun a b => a ≤ b) (csrOffsets src (cooSize src dst)) ∧
    (csrOffsets src (cooSize src dst)).getLast? =
      some ((csrIndices src dst (cooSize src dst)).length : Int) ∧
    ∀ x ∈ csrIndices src dst (cooSize src dst),
      0 ≤ x ∧ x < ((cooSize src dst : Nat) : Int) := by
  have hsrc_bound : ∀ x ∈ src, 0 ≤ x ∧ x < ((cooSize src dst : Nat) : Int) := by
    intro x hx
    have hp := hpos x (List.mem_append_left _ hx)
    exact ⟨hp, mem_lt_cooSize (List.mem_append_left _ hx) (src_not_empty_of_mem hx) hp⟩
  refine ⟨csrOffsets_getD_zero _ _, csrOffsets_sorted _ _, ?_, ?_⟩
  · rw [csrOffsets_getLast, csrIndices_length hlen hsrc_bound,
        sum_cooDegree_eq_length hsrc_bound]
  · intro x hx
    by_cases hemp : src.isEmpty = true
    · simp [csrIndices, cooSize, hemp] at hx
    · have hd : x ∈ dst := csrIndices_mem hx
      have hp := hpos x (List.mem_append_right _ hd)
      exact ⟨hp, mem_lt_cooSize (List.mem_append_right _ hd) hemp hp⟩

/-- Claim C3: for every edge list converted to an adjacency list by
gdf_add_adj_list (which runs the COO-to-CSR converter), the resulting offsets
array is monotonically non-decreasing with first entry 0 and last entry equal
to the length of the index array, and every value stored in the index array is
a valid vertex id in the dense range [0, num_vertices), where num_vertices is
one less than the length of the offsets array. -/
theorem claim_C3_csr_invariants (g : gdf_graph) (el : gdf_edge_list) (adj : gdf_adj_list)
    (hel : g.edgeList = some el)
    (hadj0 : g.adjList = none)
    (hlen : el.src_indices.data.length = el.dest_indices.data.length)
    (hpos : ∀ x ∈ el.src_indices.data ++ el.dest_indices.data, 0 ≤ x)
    (hres : (gdf_add_adj_list g).2.adjList = some adj) :
    adj.offsets.data.getD 0 0 = 0 ∧
    List.Sorted (fun a b => a ≤ b) adj.offsets.data ∧
    adj.offsets.data.getLast? = some ((adj.indices.data.length : Nat) : Int) ∧
    ∀ x ∈ adj.indices.data, 0 ≤ x ∧ x < ((adj.offsets.data.length - 1 : Nat) : Int) := by
  simp only [gdf_add_adj_list, hadj0, hel] at hres
  split at hres
  · rw [hadj0] at hres
    cases hres
  split at hres
  · -- weighted branch with dtype dispatch
    rename_i w hed
    split at hres
    · simp only [gdf_add_adj_list_impl, hadj0, hel, hed] at hres
      rw [Option.some_inj] at hres
      subst hres
      simp only [ConvertCOOtoCSR_weighted]
      have hinv := csr_invariants el.src_indices.data el.dest_indices.data hlen hpos
      simp only [List.length_map, List.length_range] at hinv ⊢
      simpa [csrOffsets, List.length_map, List.length_range] using hinv
    · rw [hadj0] at hres
      cases hres
  · -- unweighted branch
    rename_i hed
    simp only [gdf_add_adj_list_impl, hadj0, hel, hed] at hres
    rw [Option.some_inj] at hres
    subst hres
    simp only [ConvertCOOtoCSR]
    have hinv := csr_invariants el.src_indices.data el.dest_indices.data hlen hpos
    simpa [csrOffsets, List.length_map, List.length_range] using hinv

/-- Witness for claim C3 on the concrete unweighted 4-cycle edge list. -/
theorem claim_C3_csr_invariants_witness :
    (⟨⟨[0, 1, 2, 3, 4], GDF_INT32, 0⟩, ⟨[1, 2, 3, 0], GDF_INT32, 0⟩, none, 1⟩ :
        gdf_adj_list).offsets.data.getD 0 0 = 0 ∧
    List.Sorted (fun a b => a ≤ b)
      (⟨⟨[0, 1, 2, 3, 4], GDF_INT32, 0⟩, ⟨[1, 2, 3, 0], GDF_INT32, 0⟩, none, 1⟩ :
        gdf_adj_list).offsets.data ∧
    (⟨⟨[0, 1, 2, 3, 4], GDF_INT32, 0⟩, ⟨[1, 2, 3, 0], GDF_INT32, 0⟩, none, 1⟩ :
        gdf_adj_list).offsets.data.getLast? =
      some (((⟨⟨[0, 1, 2, 3, 4], GDF_INT32, 0⟩, ⟨[1, 2, 3, 0], GDF_INT32, 0⟩, none, 1⟩ :
        gdf_adj_list).indices.data.length : Nat) : Int) ∧
    ∀ x ∈ (⟨⟨[0, 1, 2, 3, 4], GDF_INT32, 0⟩, ⟨[1, 2, 3, 0], GDF_INT32, 0⟩, none, 1⟩ :
        gdf_adj_list).indices.data,
      0 ≤ x ∧ x < (((⟨⟨[0, 1, 2, 3, 4], GDF_INT32, 0⟩, ⟨[1, 2, 3, 0], GDF_INT32, 0⟩, none, 1⟩ :
        gdf_adj_list).offsets.data.length - 1 : Nat) : Int) :=
  claim_C3_csr_invariants
    ⟨some ⟨⟨[0, 1, 2, 3], GDF_INT32, 0⟩, ⟨[1, 2, 3, 0], GDF_INT32, 0⟩, none, 0⟩, none, none⟩
    ⟨⟨[0, 1, 2, 3], GDF_INT32, 0⟩, ⟨[1, 2, 3, 0], GDF_INT32, 0⟩, none, 0⟩
    ⟨⟨[0, 1, 2, 3, 4], GDF_INT32, 0⟩, ⟨[1, 2, 3, 0], GDF_INT32, 0⟩, none, 1⟩
    rfl rfl rfl (by decide) rfl
